import Mathlib

/-!
Shallow embedding of the exam-generator service
(`app/main.py`, `app/services/file_service.py`, `app/services/gemini_service.py`,
`app/schemas/exam.py`, `app/schemas/file.py`).

Conventions of the embedding:
* A byte of an uploaded buffer is `Fin 256`; an uploaded file's raw bytes are a
  `List Byte`.
* Python `str` is Lean `String`; `str.strip()` being empty is `wsOnly`, built on
  the exact whitespace set Python's `str.strip` uses.
* The external parsing libraries (`python-docx`, `PyPDF2`) are not part of the
  repository; their output is abstracted: a DOCX parse result is the list of the
  paragraphs' texts, a PDF parse result is the list of the pages' extracted
  texts, and a library-raised exception is an `Except.error` carrying the
  exception's message.  Likewise `json.loads` of the `question_types` form field
  is abstracted as an `Except String (List String)`, and one Gemini call's
  outcome as `GeminiOutcome`.  Everything downstream of those abstractions is
  translated from the repository's own code.
* A raised `HTTPException(status_code, detail)` is an `HErr`; Python's
  `str(HTTPException)` is `status ++ ": " ++ detail`, as in Starlette.
-/

namespace ExamGen

/-- One byte of an uploaded buffer. -/
abbrev Byte := Fin 256

/-- Model of `fastapi.HTTPException`: a status code and a human-readable detail. -/
structure HErr where
  status : Nat
  detail : String
deriving DecidableEq

/-- Python `str(HTTPException)` is `f"{self.status_code}: {self.detail}"`. -/
def HErr.str (e : HErr) : String := toString e.status ++ ": " ++ e.detail

/-- The character set Python's `str.strip()` removes (the `str.isspace` set). -/
def isPyWhitespace (c : Char) : Bool :=
  let n := c.toNat
  (0x09 ≤ n && n ≤ 0x0D) || (0x1C ≤ n && n ≤ 0x20) || n == 0x85 || n == 0xA0 ||
    n == 0x1680 || (0x2000 ≤ n && n ≤ 0x200A) || n == 0x2028 || n == 0x2029 ||
    n == 0x202F || n == 0x205F || n == 0x3000

/-- Python `not s.strip()`: the string has no non-whitespace character. -/
def wsOnly (s : String) : Bool := s.data.all isPyWhitespace

/-! ### Text codecs (`bytes.decode(encoding)` for the four encodings the
repository tries).  `latin-1` and its alias `iso-8859-1` map every byte to the
code point of the same value and never fail. -/

/-- Decoding a byte buffer as latin-1: byte value = code point, total. -/
def latin1String (bs : List Byte) : String := String.mk (bs.map fun b => Char.ofNat b.val)

/-- Python `content.decode('latin-1')`: succeeds on every buffer. -/
def decodeLatin1 (bs : List Byte) : Option String := some (latin1String bs)

/-- Python `content.decode('iso-8859-1')`: an alias of latin-1. -/
def decodeIso88591 (bs : List Byte) : Option String := decodeLatin1 bs

/-- Windows-1252: the 0x80–0x9F row of the decode table; bytes 0x81, 0x8D, 0x8F,
0x90, 0x9D are undefined and make the strict decode fail. -/
def cp1252Byte (b : Nat) : Option Char :=
  if b == 0x80 then some (Char.ofNat 0x20AC)
  else if b == 0x82 then some (Char.ofNat 0x201A)
  else if b == 0x83 then some (Char.ofNat 0x0192)
  else if b == 0x84 then some (Char.ofNat 0x201E)
  else if b == 0x85 then some (Char.ofNat 0x2026)
  else if b == 0x86 then some (Char.ofNat 0x2020)
  else if b == 0x87 then some (Char.ofNat 0x2021)
  else if b == 0x88 then some (Char.ofNat 0x02C6)
  else if b == 0x89 then some (Char.ofNat 0x2030)
  else if b == 0x8A then some (Char.ofNat 0x0160)
  else if b == 0x8B then some (Char.ofNat 0x2039)
  else if b == 0x8C then some (Char.ofNat 0x0152)
  else if b == 0x8E then some (Char.ofNat 0x017D)
  else if b == 0x91 then some (Char.ofNat 0x2018)
  else if b == 0x92 then some (Char.ofNat 0x2019)
  else if b == 0x93 then some (Char.ofNat 0x201C)
  else if b == 0x94 then some (Char.ofNat 0x201D)
  else if b == 0x95 then some (Char.ofNat 0x2022)
  else if b == 0x96 then some (Char.ofNat 0x2013)
  else if b == 0x97 then some (Char.ofNat 0x2014)
  else if b == 0x98 then some (Char.ofNat 0x02DC)
  else if b == 0x99 then some (Char.ofNat 0x2122)
  else if b == 0x9A then some (Char.ofNat 0x0161)
  else if b == 0x9B then some (Char.ofNat 0x203A)
  else if b == 0x9C then some (Char.ofNat 0x0153)
  else if b == 0x9E then some (Char.ofNat 0x017E)
  else if b == 0x9F then some (Char.ofNat 0x0178)
  else if b == 0x81 || b == 0x8D || b == 0x8F || b == 0x90 || b == 0x9D then none
  else some (Char.ofNat b)

/-- Python `content.decode('cp1252')`. -/
def decodeCp1252 (bs : List Byte) : Option String :=
  ((bs.map Fin.val).mapM cp1252Byte).map String.mk

/-- Whether a byte is a UTF-8 continuation byte. -/
def isCont (b : Nat) : Bool := 0x80 ≤ b && b ≤ 0xBF

/-- Prepend a decoded character to a decode in progress. -/
def consChar (c : Char) : Option (List Char) → Option (List Char)
  | some cs => some (c :: cs)
  | none => none

/-- Strict UTF-8 decoding of a byte list, as Python's `bytes.decode('utf-8')`:
overlong forms, surrogates, and code points above 0x10FFFF are rejected. -/
def utf8DecodeAux : List Nat → Option (List Char)
  | [] => some []
  | b :: rest =>
    if b < 0x80 then consChar (Char.ofNat b) (utf8DecodeAux rest)
    else if b < 0xC2 then none
    else if b ≤ 0xDF then
      match rest with
      | b1 :: rest1 =>
        if isCont b1 then
          consChar (Char.ofNat ((b - 0xC0) * 0x40 + (b1 - 0x80))) (utf8DecodeAux rest1)
        else none
      | [] => none
    else if b ≤ 0xEF then
      match rest with
      | b1 :: b2 :: rest2 =>
        if (if b == 0xE0 then 0xA0 ≤ b1 && b1 ≤ 0xBF
            else if b == 0xED then 0x80 ≤ b1 && b1 ≤ 0x9F
            else isCont b1) && isCont b2 then
          consChar (Char.ofNat ((b - 0xE0) * 0x1000 + (b1 - 0x80) * 0x40 + (b2 - 0x80)))
            (utf8DecodeAux rest2)
        else none
      | _ => none
    else if b ≤ 0xF4 then
      match rest with
      | b1 :: b2 :: b3 :: rest3 =>
        if (if b == 0xF0 then 0x90 ≤ b1 && b1 ≤ 0xBF
            else if b == 0xF4 then 0x80 ≤ b1 && b1 ≤ 0x8F
            else isCont b1) && isCont b2 && isCont b3 then
          consChar
            (Char.ofNat
              ((b - 0xF0) * 0x40000 + (b1 - 0x80) * 0x1000 + (b2 - 0x80) * 0x40 + (b3 - 0x80)))
            (utf8DecodeAux rest3)
        else none
      | _ => none
    else none

/-- Python `content.decode('utf-8')`. -/
def decodeUtf8 (bs : List Byte) : Option String :=
  (utf8DecodeAux (bs.map Fin.val)).map String.mk

/-! ### `FileService._read_txt_file` -/

/-- The fixed ordered encoding list `['utf-8', 'latin-1', 'cp1252', 'iso-8859-1']`
of `_read_txt_file`, each entry as its decode function. -/
def encodingList : List (List Byte → Option String) :=
  [decodeUtf8, decodeLatin1, decodeCp1252, decodeIso88591]

/-- The `for encoding in encodings` loop of `_read_txt_file`: first decode that
succeeds (`except UnicodeDecodeError: continue`) and has `text.strip()` truthy. -/
def firstGoodDecode : List (List Byte → Option String) → List Byte → Option String
  | [], _ => none
  | enc :: rest, content =>
    match enc content with
    | some text => if wsOnly text then firstGoodDecode rest content else some text
    | none => firstGoodDecode rest content

/-- The `HTTPException(400, "Could not decode text file")` of `_read_txt_file`. -/
def decodeErr : HErr := ⟨400, "Could not decode text file"⟩

/-- `FileService._read_txt_file` on the uploaded bytes. -/
def read_txt_file (content : List Byte) : Except HErr String :=
  match firstGoodDecode encodingList content with
  | some text => .ok text
  | none => .error decodeErr

/-! ### `FileService._read_docx_file` and `FileService._read_pdf_file`.
The library parse phase is abstracted (see the file header); the joining,
skipping and emptiness logic below is the repository's. -/

/-- The `HTTPException(400, ...)` of `_read_docx_file` for whitespace-only text. -/
def docxEmptyErr : HErr := ⟨400, "No text content found in DOCX file"⟩

/-- `FileService._read_docx_file` after `Document(...)` produced `paras` (the
`para.text` list): join with newlines, reject whitespace-only text. -/
def read_docx_paragraphs (paras : List String) : Except HErr String :=
  let text_content := String.intercalate "\n" paras
  if wsOnly text_content then .error docxEmptyErr else .ok text_content

/-- The `HTTPException(400, ...)` of `_read_pdf_file` for a PDF with no text. -/
def pdfEmptyErr : HErr :=
  ⟨400, "No text content found in PDF. File might be image-based or encrypted."⟩

/-- The `HTTPException(400, ...)` of `_read_pdf_file` for a PDF with no pages. -/
def pdfNoPagesErr : HErr := ⟨400, "PDF file has no pages"⟩

/-- `FileService._read_pdf_file` after `PdfReader` produced `pages` (the
`page.extract_text()` list): reject an empty page sequence, keep only pages
whose extracted text is truthy (non-empty), join with `"\n"`, and reject a
whitespace-only join. -/
def read_pdf_pages (pages : List String) : Except HErr String :=
  if pages.length == 0 then .error pdfNoPagesErr
  else
    let text_pages := pages.filter fun page_text => page_text ≠ ""
    let full_text := String.intercalate "\n" text_pages
    if wsOnly full_text then .error pdfEmptyErr else .ok full_text

/-! ### The schema contract (`app/schemas/exam.py`, `app/schemas/file.py`) -/

/-- The `QuestionType` enum; `value` is the member's string value. -/
inductive QuestionType
  | MCQ
  | TrueFalse
  | ShortAnswer
  | Essay
deriving DecidableEq

/-- The string value of a `QuestionType` member ("Multiple Choice", ...). -/
def QuestionType.value : QuestionType → String
  | .MCQ => "Multiple Choice"
  | .TrueFalse => "True/False"
  | .ShortAnswer => "Short Answer"
  | .Essay => "Essay"

/-- The `Literal[Difficulty.Easy, Difficulty.Medium, Difficulty.Hard]` type a
question's `difficulty` field carries (the request-level `Mixed` is excluded
by the literal type). -/
inductive QuestionDifficulty
  | Easy
  | Medium
  | Hard
deriving DecidableEq

/-- The string value of a question difficulty. -/
def QuestionDifficulty.value : QuestionDifficulty → String
  | .Easy => "Easy"
  | .Medium => "Medium"
  | .Hard => "Hard"

/-- The tagged union `Question = Union[MultipleChoiceQuestion, TrueFalseQuestion,
ShortAnswerQuestion, EssayQuestion]`, discriminated by `type`; each variant
carries the base fields (`id`, `difficulty`, `question`) and its own fields. -/
inductive Question
  | multipleChoice (id : Int) (difficulty : QuestionDifficulty) (question : String)
      (options : List String) (correct_answer : String) (explanation : String)
  | trueFalse (id : Int) (difficulty : QuestionDifficulty) (question : String)
      (correct_answer : String) (explanation : String)
  | shortAnswer (id : Int) (difficulty : QuestionDifficulty) (question : String)
      (sample_answer : String)
  | essay (id : Int) (difficulty : QuestionDifficulty) (question : String)
      (guidelines : String)
deriving DecidableEq

/-- The base field `id` of a question. -/
def Question.qid : Question → Int
  | .multipleChoice i _ _ _ _ _ => i
  | .trueFalse i _ _ _ _ => i
  | .shortAnswer i _ _ _ => i
  | .essay i _ _ _ => i

/-- The discriminant `type` of a question. -/
def Question.qtype : Question → QuestionType
  | .multipleChoice _ _ _ _ _ _ => .MCQ
  | .trueFalse _ _ _ _ _ => .TrueFalse
  | .shortAnswer _ _ _ _ => .ShortAnswer
  | .essay _ _ _ _ => .Essay

/-- The base field `difficulty` of a question. -/
def Question.qdifficulty : Question → QuestionDifficulty
  | .multipleChoice _ d _ _ _ _ => d
  | .trueFalse _ d _ _ _ => d
  | .shortAnswer _ d _ _ => d
  | .essay _ d _ _ => d

/-- The base field `question` (the question text). -/
def Question.qtext : Question → String
  | .multipleChoice _ _ t _ _ _ => t
  | .trueFalse _ _ t _ _ => t
  | .shortAnswer _ _ t _ => t
  | .essay _ _ t _ => t

/-- The `Exam` pydantic model. -/
structure Exam where
  id : Option Int := none
  exam_title : String
  total_questions : Int
  difficulty : String
  estimated_completion_minutes : Int
  question_types : List QuestionType
  questions : List Question
deriving DecidableEq

/-- `[filetype.value for filetype in InputFileType]`: the supported upload
extensions, in the enum's declaration order (DOCX, PDF, TEXT). -/
def supportedExtensions : List String := ["docx", "pdf", "txt"]

/-! ### `FileService.create_file_stream` (the export renderer) -/

/-- A run of `n` copies of one character, Python's `c * n`. -/
def charRun (c : Char) (n : Nat) : String := String.mk (List.replicate n c)

/-- The option loop of `create_file_stream`: line `i` (zero-based) of a
Multiple Choice question's options is `f"{chr(65 + i)}. {option}\n"`. -/
def optionLinesOf (options : List String) : List String :=
  options.enum.map fun p => String.singleton (Char.ofNat (65 + p.1)) ++ ". " ++ p.2 ++ "\n"

/-- The per-question body block written by the first loop of
`create_file_stream`: header line, question text, type-specific extras, and a
40-dash separator. -/
def questionBlock (q : Question) : String :=
  "Question " ++ toString q.qid ++ " [" ++ q.qtype.value ++ " - " ++ q.qdifficulty.value ++
    "]\n" ++ q.qtext ++ "\n\n" ++
  (match q with
   | .multipleChoice _ _ _ options _ _ => String.join (optionLinesOf options)
   | .essay _ _ _ guidelines => "Guidelines: " ++ guidelines ++ "\n"
   | _ => "") ++
  "\n" ++ charRun '-' 40 ++ "\n\n"

/-- The per-question line of the answer-key loop of `create_file_stream`. -/
def answerLine (q : Question) : String :=
  match q with
  | .multipleChoice i _ _ _ correct_answer _ =>
      "Question " ++ toString i ++ ": " ++ correct_answer ++ "\n"
  | .trueFalse i _ _ correct_answer _ =>
      "Question " ++ toString i ++ ": " ++ correct_answer ++ "\n"
  | .shortAnswer i _ _ sample_answer =>
      "Question " ++ toString i ++ ": [Sample Answer] " ++ sample_answer ++ "\n"
  | .essay i _ _ _ =>
      "Question " ++ toString i ++ ": Not Applicable\n"

/-- The header block of `create_file_stream` (title, counts, difficulty, time,
comma-joined type values) followed by the 40-equals separator. -/
def examHeader (exam : Exam) : String :=
  "Exam Title: " ++ exam.exam_title ++ "\n" ++
  "Questions: " ++ toString exam.total_questions ++ "\n" ++
  "Difficulty: " ++ exam.difficulty ++ "\n" ++
  "Estimated Time: " ++ toString exam.estimated_completion_minutes ++ " minutes\n" ++
  "Types: " ++ String.intercalate ", " (exam.question_types.map QuestionType.value) ++ "\n" ++
  "\n" ++ charRun '=' 40 ++ "\n\n"

/-- The full textual body `create_file_stream` writes into its buffer, in write
order: header, question blocks, then the answer-key section. -/
def createFileContent (exam : Exam) : String :=
  examHeader exam ++ String.join (exam.questions.map questionBlock) ++
  "\nANSWER KEY\n" ++ charRun '=' 40 ++ "\n\n" ++
  String.join (exam.questions.map answerLine)

/-- Python `exam_title.replace(" ", "_")` (every space becomes an underscore;
the pattern is a single character, so the replacement is per-character). -/
def underscoreSpaces (s : String) : String :=
  String.mk (s.data.map fun c => if c == ' ' then '_' else c)

/-- The `mime_map.get(file_type)` lookup of `create_file_stream`. -/
def mimeMap (file_type : String) : Option String :=
  if file_type == "txt" then some "text/plain"
  else if file_type == "doc" then some "application/msword"
  else none

/-- The observable parts of the `StreamingResponse` built by
`create_file_stream`: the streamed textual body, the `media_type`, and the
filename used in the `Content-Disposition` header. -/
structure StreamedFile where
  body : String
  media_type : Option String
  filename : String
deriving DecidableEq

/-- `FileService.create_file_stream`. -/
def create_file_stream (exam : Exam) (file_type : String) : StreamedFile :=
  { body := createFileContent exam
    media_type := mimeMap file_type
    filename := underscoreSpaces exam.exam_title ++ "." ++ file_type }

/-! ### `FileService.read_file` and the generate endpoint (`app/main.py`) -/

/-- An uploaded file as the service observes it: the declared filename, the raw
byte buffer, and the abstracted outcomes of the two external parsers
(`Except.error msg` is a library exception carrying message `msg`; `Except.ok`
carries the paragraph texts resp. the per-page extracted texts). -/
structure UFile where
  filename : String
  bytes : List Byte
  docx_paragraphs : Except String (List String)
  pdf_pages : Except String (List String)

/-- Python's ASCII case folding as `filename.lower()` applies to the usual
ASCII filenames the service handles. -/
def charLower (c : Char) : Char :=
  if 'A' ≤ c ∧ c ≤ 'Z' then Char.ofNat (c.toNat + 32) else c

/-- `filename.lower()`. -/
def pyLower (s : String) : String := String.mk (s.data.map charLower)

/-- Python `sub in s` for the one-character substring `"."`. -/
def containsDot (s : String) : Bool := s.data.contains '.'

/-- Python `s.split(".")` on a character list. -/
def splitDotAux : List Char → List Char → List (List Char)
  | [], acc => [acc.reverse]
  | c :: rest, acc =>
    if c == '.' then acc.reverse :: splitDotAux rest [] else splitDotAux rest (c :: acc)

/-- Python `filename.split(".")[-1]`: the text after the last dot. -/
def extensionOf (s : String) : String :=
  String.mk ((splitDotAux s.data []).getLastD [])

/-- Python `s.endswith(suffix)`. -/
def pyEndsWith (s suffix : String) : Bool := suffix.data.isSuffixOf s.data

/-- `FileService._read_docx_file` on an uploaded file: a library exception from
`Document(...)` escapes to `read_file`'s generic handler; otherwise the
paragraph texts are joined and checked. -/
def read_docx_file (f : UFile) : Except HErr String :=
  match f.docx_paragraphs with
  | .error msg => .error ⟨500, "Error processing file: " ++ msg⟩
  | .ok paras => read_docx_paragraphs paras

/-- `FileService._read_pdf_file` on an uploaded file: a library exception from
`PdfReader` is caught by the method's own handler and wrapped with status 500;
otherwise the page texts are filtered and joined. -/
def read_pdf_file (f : UFile) : Except HErr String :=
  match f.pdf_pages with
  | .error msg => .error ⟨500, "Failed to process PDF file: " ++ msg⟩
  | .ok pages => read_pdf_pages pages

/-- `FileService.read_file`: validate the filename, dispatch on the lowered
filename's last extension.  The `doc` branch calls `_read_doc_file`, which is
not defined anywhere in the class, so that branch raises `AttributeError`,
which the method's `except Exception` turns into a 500. -/
def read_file (f : UFile) : Except HErr String :=
  if f.filename == "" then .error ⟨400, "No file provided"⟩
  else
    let filename := pyLower f.filename
    if !containsDot filename then .error ⟨400, "File must have an extension"⟩
    else
      let extension := extensionOf filename
      if extension == "txt" then read_txt_file f.bytes
      else if extension == "docx" then read_docx_file f
      else if extension == "doc" then
        .error ⟨500, "Error processing file: type object 'FileService' has no attribute '_read_doc_file'"⟩
      else if extension == "pdf" then read_pdf_file f
      else
        .error ⟨400, "Unsupported file format: " ++ extension ++ ". Supported: txt, docx, doc, pdf"⟩

/-- The outcome of the one `gemini_service.generate_exam` call as `main.py`
observes it: `apiError msg` is the `RuntimeError` the service raises (wrapping
any provider failure), `emptyParsed` a response whose `.parsed` is falsy,
`invalidParsed msg` a response whose parsed object `Exam.model_validate`
rejects (pydantic raises with message `msg`), and `valid e` a response whose
parsed object validates to the exam `e`. -/
inductive GeminiOutcome
  | apiError (msg : String)
  | emptyParsed
  | invalidParsed (msg : String)
  | valid (e : Exam)

/-- An exception escaping the body of the `generate_exam` route handler, before
its `except RuntimeError` / `except Exception` clauses run: a raised
`HTTPException`, a `RuntimeError`, or any other exception (with its `str`). -/
inductive PyExc
  | httpExc (e : HErr)
  | runtimeError (msg : String)
  | otherExc (msg : String)

/-- The remainder of the `generate_exam` body once `final_content` is known:
the emptiness check, the Gemini call, the `.parsed` check and the
`Exam.model_validate` call.  Raised exceptions are returned, not yet filtered
through the route's `except` clauses. -/
def generateAfterContent (final_content : String) (gemini : GeminiOutcome) :
    Except PyExc Exam :=
  if final_content == "" || wsOnly final_content then
    .error (.httpExc ⟨400, "No content found to generate exam from."⟩)
  else
    match gemini with
    | .apiError msg => .error (.runtimeError msg)
    | .emptyParsed =>
        .error (.httpExc ⟨500, "Gemini API returned an empty or unparseable response."⟩)
    | .invalidParsed msg => .error (.otherExc msg)
    | .valid e => .ok e

/-- The `try` body of the `generate_exam` route handler: `json.loads` of
`question_types` (its parse outcome is `question_types_json`), the
presence/exclusivity checks, the filename and extension checks, the inner
`try/except` around `FileService.read_file` that re-raises every extraction
failure as a 500, then `generateAfterContent`. -/
def generateBody (question_types_json : Except String (List String))
    (exam_guide_content : String) (exam_guide_file : Option UFile)
    (gemini : GeminiOutcome) : Except PyExc Exam :=
  match question_types_json with
  | .error msg => .error (.otherExc msg)
  | .ok _parsed_question_types =>
    if exam_guide_content == "" && exam_guide_file.isNone then
      .error (.httpExc ⟨400, "Either 'exam_guide_content' or 'exam_guide_file' must be provided."⟩)
    else if exam_guide_content != "" && exam_guide_file.isSome then
      .error (.httpExc ⟨400, "Provide either 'exam_guide_content' OR 'exam_guide_file', not both."⟩)
    else
      match exam_guide_file with
      | none => generateAfterContent exam_guide_content gemini
      | some f =>
        if f.filename == "" then
          .error (.httpExc ⟨400, "File must have a filename with extension."⟩)
        else
          let filename_lower := pyLower f.filename
          if supportedExtensions.any fun ext => pyEndsWith filename_lower ("." ++ ext) then
            match read_file f with
            | .error e => .error (.httpExc ⟨500, "Error reading file: " ++ e.str⟩)
            | .ok final_content => generateAfterContent final_content gemini
          else
            .error (.httpExc ⟨400, "Unsupported file type. Supported: ['docx', 'pdf', 'txt']"⟩)

/-- The full `generate_exam` route handler: the body above, filtered through
`except RuntimeError` and then `except Exception`.  `HTTPException` subclasses
`Exception` and neither clause re-raises it unchanged, so even the 400
exceptions the body raises are caught and surfaced as 500 with the generic
detail prefix. -/
def generate_exam (question_types_json : Except String (List String))
    (exam_guide_content : String) (exam_guide_file : Option UFile)
    (gemini : GeminiOutcome) : Except HErr Exam :=
  match generateBody question_types_json exam_guide_content exam_guide_file gemini with
  | .ok exam => .ok exam
  | .error (.runtimeError msg) =>
      .error ⟨500, "Error generating exam from Gemini: " ++ msg⟩
  | .error (.httpExc e) =>
      .error ⟨500, "An unexpected error occurred while processing the request: " ++ e.str⟩
  | .error (.otherExc msg) =>
      .error ⟨500, "An unexpected error occurred while processing the request: " ++ msg⟩

/-! ## Theorems -/

/-- C1 counterexample: a `.txt` upload whose every decode is whitespace-only is
an extraction failure at step 3 of the generate path, yet the endpoint surfaces
it with status 500 (double-wrapped by the inner file handler and the route's
catch-all), not as a 4xx client-input error as the claim states. -/
theorem txt_decode_failure_surfaced_500 :
    generate_exam (.ok ["Essay"]) "" (some ⟨"notes.txt", [32], .ok [], .ok []⟩) .emptyParsed =
      .error ⟨500, "An unexpected error occurred while processing the request: 500: Error reading file: 400: Could not decode text file"⟩ := rfl

/-- C1 (amended): every failure of the generate path, at any of steps 1-6, is
surfaced to the client with status 500: the inner handler wraps extraction
failures as 500, and the route's `except Exception` catch-all re-wraps even the
handler's own 400 `HTTPException`s, so only the detail message distinguishes
client-input problems from backend ones. -/
theorem generate_errors_all_500 (question_types_json : Except String (List String))
    (exam_guide_content : String) (exam_guide_file : Option UFile) (gemini : GeminiOutcome)
    (e : HErr)
    (h : generate_exam question_types_json exam_guide_content exam_guide_file gemini =
      .error e) : e.status = 500 := by
  unfold generate_exam at h
  cases hb : generateBody question_types_json exam_guide_content exam_guide_file gemini with
  | ok v => rw [hb] at h; exact absurd h (by simp)
  | error pe =>
    rw [hb] at h
    cases pe with
    | httpExc e2 => simp only [Except.error.injEq] at h; rw [← h]
    | runtimeError msg => simp only [Except.error.injEq] at h; rw [← h]
    | otherExc msg => simp only [Except.error.injEq] at h; rw [← h]

/-- C1 witness: the amended theorem applied to a malformed-`question_types`
request, whose surfaced error indeed has status 500. -/
theorem generate_errors_all_500_witness :
    (HErr.mk 500 ("An unexpected error occurred while processing the request: " ++ "boom")).status =
      500 :=
  generate_errors_all_500 (.error "boom") "" none .emptyParsed _ rfl

/-- C2: with valid `question_types` JSON, both-absent and both-present guide
sources are rejected before any extraction or AI call (the result does not
depend on the file's contents or on the Gemini outcome), with the
`InvalidInput` detail of the 400 `HTTPException` the handler raises — but the
surfaced status is 500, because the route's catch-all re-wraps its own
exception.  The claim's HTTP 400 is what the raising code intends and what the
spec states; the catch-all is the slip. -/
theorem exclusivity_violation_surfaced_500 (gemini : GeminiOutcome) (bs : List Byte)
    (dx pp : Except String (List String)) :
    generate_exam (.ok ["Multiple Choice"]) "" none gemini =
      .error ⟨500, "An unexpected error occurred while processing the request: 400: Either 'exam_guide_content' or 'exam_guide_file' must be provided."⟩ ∧
    generate_exam (.ok ["Multiple Choice"]) "guide text" (some ⟨"a.txt", bs, dx, pp⟩) gemini =
      .error ⟨500, "An unexpected error occurred while processing the request: 400: Provide either 'exam_guide_content' OR 'exam_guide_file', not both."⟩ :=
  ⟨rfl, rfl⟩

/-- C5 counterexample: a `question_types` form field that is not valid JSON
makes `json.loads` raise; the route's generic handler surfaces status 500 with
the generic prefix, not a 4xx client error as the claim states. -/
theorem malformed_question_types_counterexample :
    generate_exam (.error "Expecting value: line 1 column 1 (char 0)") "guide" none
        .emptyParsed =
      .error ⟨500, "An unexpected error occurred while processing the request: Expecting value: line 1 column 1 (char 0)"⟩ := rfl

/-- C5 (amended): a malformed `question_types` field fails through the route's
generic exception handler with status 500 and the generic detail prefix, and no
AI call is attempted (the result does not depend on the Gemini outcome, nor on
the other fields). -/
theorem malformed_question_types_500 (msg exam_guide_content : String)
    (exam_guide_file : Option UFile) (gemini : GeminiOutcome) :
    generate_exam (.error msg) exam_guide_content exam_guide_file gemini =
      .error ⟨500, "An unexpected error occurred while processing the request: " ++ msg⟩ :=
  rfl

/-- C6: an uploaded file named `notes.xyz` (with no inline guide text) is
rejected before extraction is invoked — the result does not depend on the
file's bytes or parse outcomes, nor on the Gemini outcome — with the detail of
the 400 `HTTPException` listing the supported extensions; but the surfaced
status is 500, because the route's catch-all re-wraps its own exception.  The
claim's HTTP 400 is what the raising code intends; the catch-all is the slip. -/
theorem unsupported_extension_surfaced_500 (gemini : GeminiOutcome) (bs : List Byte)
    (dx pp : Except String (List String)) :
    generate_exam (.ok ["Essay"]) "" (some ⟨"notes.xyz", bs, dx, pp⟩) gemini =
      .error ⟨500, "An unexpected error occurred while processing the request: 400: Unsupported file type. Supported: ['docx', 'pdf', 'txt']"⟩ :=
  rfl

/-- C9: rendering with `doc` produces the same textual body as rendering with
`txt`; the two streamed files differ only in the declared media type
(`application/msword` against `text/plain`) and in the filename extension. -/
theorem doc_format_equals_txt (exam : Exam) :
    create_file_stream exam "doc" =
      { body := (create_file_stream exam "txt").body
        media_type := some "application/msword"
        filename := underscoreSpaces exam.exam_title ++ ".doc" } ∧
    (create_file_stream exam "txt").media_type = some "text/plain" ∧
    (create_file_stream exam "txt").filename = underscoreSpaces exam.exam_title ++ ".txt" := by
  refine ⟨?_, rfl, ?_⟩ <;>
    simp [create_file_stream, mimeMap, String.append_assoc]

/-- C4: the PDF page walk keeps the pages in order, drops exactly the pages
whose extracted text is empty, and joins the survivors with single newlines;
a non-empty page sequence in which no page yields text fails with the
empty-content error; and for a 3-page document whose second page extracts empty
text the result is page 1's text, a newline, and page 3's text. -/
theorem pdf_pages_skipped_and_joined (pages emptyPages : List String) (p1 p3 : String)
    (hne : pages ≠ [])
    (hnws : wsOnly (String.intercalate "\n" (pages.filter fun page_text => page_text ≠ "")) =
      false)
    (hee : emptyPages ≠ []) (hall : ∀ p ∈ emptyPages, p = "")
    (h1 : p1 ≠ "") (h3 : p3 ≠ "") (hws : wsOnly (p1 ++ "\n" ++ p3) = false) :
    read_pdf_pages pages =
      .ok (String.intercalate "\n" (pages.filter fun page_text => page_text ≠ "")) ∧
    read_pdf_pages emptyPages = .error pdfEmptyErr ∧
    read_pdf_pages [p1, "", p3] = .ok (p1 ++ "\n" ++ p3) := by
  simp only [ne_eq, decide_not] at hnws ⊢
  refine ⟨?_, ?_, ?_⟩
  · simp [read_pdf_pages, hnws, List.length_eq_zero, hne]
  · have hfil : emptyPages.filter (fun page_text => !decide (page_text = "")) = [] := by
      simp only [List.filter_eq_nil_iff]
      intro a ha
      simp [hall a ha]
    simp [read_pdf_pages, hfil, List.length_eq_zero, hee, wsOnly, String.intercalate]
  · have hfil : ([p1, "", p3].filter fun page_text => !decide (page_text = "")) = [p1, p3] := by
      simp [List.filter, h1, h3]
    have hint : String.intercalate "\n" [p1, p3] = p1 ++ "\n" ++ p3 := by
      simp [String.intercalate, String.intercalate.go]
    simp [read_pdf_pages, hfil, hint, hws]

/-- C4 witness: the page-walk theorem applied to the concrete page sequences
`["alpha", "", "beta"]` and `["", ""]`. -/
theorem pdf_pages_skipped_and_joined_witness :
    read_pdf_pages ["alpha", "", "beta"] =
      .ok (String.intercalate "\n"
        ((["alpha", "", "beta"] : List String).filter fun page_text => page_text ≠ "")) ∧
    read_pdf_pages ["", ""] = .error pdfEmptyErr ∧
    read_pdf_pages ["alpha", "", "beta"] = .ok ("alpha" ++ "\n" ++ "beta") :=
  pdf_pages_skipped_and_joined ["alpha", "", "beta"] ["", ""] "alpha" "beta"
    (by decide) (by decide) (by decide) (by decide) (by decide) (by decide) (by decide)

/-- Joining string lists splits over list append. -/
theorem strJoin_append (l1 l2 : List String) :
    String.join (l1 ++ l2) = String.join l1 ++ String.join l2 := by
  apply String.ext
  simp [String.join_eq, String.data_append]

/-- Joining string lists peels the head. -/
theorem strJoin_cons (a : String) (l : List String) :
    String.join (a :: l) = a ++ String.join l := by
  apply String.ext
  simp [String.join_eq, String.data_append]

/-- C8: the rendered output ends with the ANSWER KEY section — the "ANSWER KEY"
heading, a 40-character run of `=`, and then, per question in the questions'
original order, the correct answer for Multiple Choice and True/False
questions, the sample answer prefixed `[Sample Answer]` for Short Answer
questions, and the literal `Not Applicable` for Essay questions. -/
theorem answer_key_section (exam : Exam) :
    ∃ pre, createFileContent exam =
      pre ++ ("\nANSWER KEY\n" ++ String.mk (List.replicate 40 '=') ++ "\n\n" ++
        String.join (exam.questions.map fun q =>
          match q with
          | Question.multipleChoice i _ _ _ correct _ =>
              "Question " ++ toString i ++ ": " ++ correct ++ "\n"
          | Question.trueFalse i _ _ correct _ =>
              "Question " ++ toString i ++ ": " ++ correct ++ "\n"
          | Question.shortAnswer i _ _ sample =>
              "Question " ++ toString i ++ ": [Sample Answer] " ++ sample ++ "\n"
          | Question.essay i _ _ _ =>
              "Question " ++ toString i ++ ": Not Applicable\n")) := by
  have hmap : exam.questions.map (fun q =>
      match q with
      | Question.multipleChoice i _ _ _ correct _ =>
          "Question " ++ toString i ++ ": " ++ correct ++ "\n"
      | Question.trueFalse i _ _ correct _ =>
          "Question " ++ toString i ++ ": " ++ correct ++ "\n"
      | Question.shortAnswer i _ _ sample =>
          "Question " ++ toString i ++ ": [Sample Answer] " ++ sample ++ "\n"
      | Question.essay i _ _ _ =>
          "Question " ++ toString i ++ ": Not Applicable\n") =
      exam.questions.map answerLine := by
    apply List.map_congr_left
    intro q _
    cases q <;> rfl
  refine ⟨examHeader exam ++ String.join (exam.questions.map questionBlock), ?_⟩
  rw [hmap]
  simp only [createFileContent, charRun, String.append_assoc]

/-- Character `i` of the Latin capital alphabet is `chr(65 + i)`. -/
theorem alphabet_at (i : Nat) (h : i < 26) :
    "ABCDEFGHIJKLMNOPQRSTUVWXYZ".data.getD i ' ' = Char.ofNat (65 + i) := by
  revert h
  revert i
  decide

/-- A member question's body block appears inside the rendered output. -/
theorem createFileContent_contains_block (exam : Exam) (q : Question)
    (hq : q ∈ exam.questions) :
    ∃ pre post, createFileContent exam = pre ++ (questionBlock q ++ post) := by
  obtain ⟨s, t, hst⟩ := List.append_of_mem hq
  refine ⟨examHeader exam ++ String.join (s.map questionBlock),
    String.join (t.map questionBlock) ++
      ("\nANSWER KEY\n" ++ charRun '=' 40 ++ "\n\n" ++
        String.join ((s ++ q :: t).map answerLine)), ?_⟩
  rw [createFileContent, hst]
  simp only [List.map_append, List.map_cons, strJoin_append, strJoin_cons, String.append_assoc]

/-- C7: for a Multiple Choice question with at most 26 options, the renderer
emits one option line per option, in the options' original order, and line `i`
(zero-based) is labeled with letter `i` of the alphabet followed by `". "`;
the joined option lines appear inside the rendered exam output. -/
theorem mc_options_lettered (exam : Exam) (qid : Int) (d : QuestionDifficulty)
    (qtext correct expl : String) (options : List String) (i : Nat)
    (hq : Question.multipleChoice qid d qtext options correct expl ∈ exam.questions)
    (hcap : options.length ≤ 26) (hi : i < options.length) :
    (optionLinesOf options).length = options.length ∧
    (optionLinesOf options).getD i "" =
      String.singleton ("ABCDEFGHIJKLMNOPQRSTUVWXYZ".data.getD i ' ') ++ ". " ++
        options.getD i "" ++ "\n" ∧
    ∃ pre post, createFileContent exam =
      pre ++ (String.join (optionLinesOf options) ++ post) := by
  have hlen : (optionLinesOf options).length = options.length := by
    simp [optionLinesOf]
  have hi' : i < (optionLinesOf options).length := by rw [hlen]; exact hi
  refine ⟨hlen, ?_, ?_⟩
  · rw [alphabet_at i (lt_of_lt_of_le hi hcap)]
    rw [List.getD_eq_getElem _ _ hi', List.getD_eq_getElem _ _ hi]
    simp [optionLinesOf]
  · obtain ⟨pre, post, hsplit⟩ := createFileContent_contains_block exam _ hq
    refine ⟨pre ++ ("Question " ++ toString qid ++ " [" ++ "Multiple Choice" ++ " - " ++
        d.value ++ "]\n" ++ qtext ++ "\n\n"),
      "\n" ++ charRun '-' 40 ++ "\n\n" ++ post, ?_⟩
    rw [hsplit]
    simp only [questionBlock, Question.qid, Question.qtype, QuestionType.value,
      Question.qdifficulty, Question.qtext, String.append_assoc]

/-- C7 witness: the lettering theorem applied to a one-question exam whose
Multiple Choice question has the three options `["x", "y", "z"]`, at index 0. -/
theorem mc_options_lettered_witness :
    (optionLinesOf ["x", "y", "z"]).length = (["x", "y", "z"] : List String).length ∧
    (optionLinesOf ["x", "y", "z"]).getD 0 "" =
      String.singleton ("ABCDEFGHIJKLMNOPQRSTUVWXYZ".data.getD 0 ' ') ++ ". " ++
        (["x", "y", "z"] : List String).getD 0 "" ++ "\n" ∧
    ∃ pre post,
      createFileContent
        { exam_title := "T", total_questions := 1, difficulty := "Easy",
          estimated_completion_minutes := 5, question_types := [QuestionType.MCQ],
          questions := [Question.multipleChoice 1 QuestionDifficulty.Easy "Q?"
            ["x", "y", "z"] "x" "why"] } =
      pre ++ (String.join (optionLinesOf ["x", "y", "z"]) ++ post) :=
  mc_options_lettered
    { exam_title := "T", total_questions := 1, difficulty := "Easy",
      estimated_completion_minutes := 5, question_types := [QuestionType.MCQ],
      questions := [Question.multipleChoice 1 QuestionDifficulty.Easy "Q?"
        ["x", "y", "z"] "x" "why"] }
    1 QuestionDifficulty.Easy "Q?" "x" "why" ["x", "y", "z"] 0
    (by simp) (by decide) (by decide)

/-- The decode loop returns the head of the in-order list of successful
non-whitespace-only decodes. -/
theorem firstGoodDecode_eq_filterMap (encs : List (List Byte → Option String))
    (content : List Byte) :
    firstGoodDecode encs content =
      (encs.filterMap fun enc =>
        match enc content with
        | some text => if wsOnly text then none else some text
        | none => none).head? := by
  induction encs with
  | nil => rfl
  | cons e es ih =>
    simp only [firstGoodDecode, List.filterMap_cons]
    cases he : e content with
    | none => simpa using ih
    | some text =>
      cases hw : wsOnly text with
      | true => simpa [hw] using ih
      | false => simp [hw]

/-- The decode loop fails exactly when every encoding's decode either raises or
yields whitespace-only text. -/
theorem firstGoodDecode_eq_none_iff (encs : List (List Byte → Option String))
    (content : List Byte) :
    firstGoodDecode encs content = none ↔
      (encs.all fun enc =>
        match enc content with
        | some text => wsOnly text
        | none => true) = true := by
  induction encs with
  | nil => simp [firstGoodDecode]
  | cons e es ih =>
    simp only [firstGoodDecode, List.all_cons, Bool.and_eq_true]
    cases he : e content with
    | none => simp [ih]
    | some text =>
      cases hw : wsOnly text with
      | true => simp [hw, ih]
      | false => simp [hw]

/-- C3: txt extraction tries the fixed ordered encoding list utf-8, latin-1,
cp1252, iso-8859-1 and returns exactly the first decode that succeeds and is
not whitespace-only; when no encoding yields such a decode it fails with the
`DecodeError` exception (HTTP 400, "Could not decode text file"). -/
theorem read_txt_first_successful_decode (content : List Byte) :
    read_txt_file content =
      match ([decodeUtf8, decodeLatin1, decodeCp1252, decodeIso88591].filterMap fun enc =>
        match enc content with
        | some text => if wsOnly text then none else some text
        | none => none).head? with
      | some text => Except.ok text
      | none => Except.error decodeErr := by
  rw [read_txt_file, firstGoodDecode_eq_filterMap]
  rfl

/-- Abbreviation for C10: every encoding of the list either fails on the buffer
or decodes it to whitespace-only text. -/
def allDecodesWs (content : List Byte) : Bool :=
  encodingList.all fun enc =>
    match enc content with
    | some text => wsOnly text
    | none => true

/-- C10: txt extraction raises its decode error exactly when every supported
decode of the buffer is whitespace-only; latin-1 (second in the list) decodes
every byte buffer, so whenever the latin-1 reading of the buffer has a
non-whitespace character the extraction succeeds with some
non-whitespace-only text — the no-encoding-matches failure cannot occur for a
buffer with non-whitespace content. -/
theorem txt_latin1_never_fails (content : List Byte) :
    (read_txt_file content = .error decodeErr ↔ allDecodesWs content = true) ∧
    decodeLatin1 content = some (latin1String content) ∧
    (wsOnly (latin1String content) = false →
      ∃ text, read_txt_file content = .ok text ∧ wsOnly text = false) := by
  refine ⟨?_, rfl, ?_⟩
  · rw [show allDecodesWs content = (encodingList.all fun enc =>
        match enc content with
        | some text => wsOnly text
        | none => true) from rfl, ← firstGoodDecode_eq_none_iff]
    unfold read_txt_file
    cases hf : firstGoodDecode encodingList content with
    | none => simp
    | some text => simp
  · intro h
    unfold read_txt_file
    cases hu : decodeUtf8 content with
    | none =>
        exact ⟨latin1String content,
          by simp [encodingList, firstGoodDecode, hu, h, decodeLatin1], h⟩
    | some text =>
      cases hw : wsOnly text with
      | true =>
          exact ⟨latin1String content,
            by simp [encodingList, firstGoodDecode, hu, hw, h, decodeLatin1], h⟩
      | false =>
          exact ⟨text, by simp [encodingList, firstGoodDecode, hu, hw], hw⟩

end ExamGen
